import Mathlib

/-!
Shallow embedding of the conversation-memory subsystem of the Docky
repository (src/memory/token_counter.py and
src/memory/conversation_manager.py), together with theorems settling the
specification claims about it.

Modelling conventions:
- Python non-negative ints become Nat; `//` becomes Nat division.
- Python string slicing s[:k] becomes String.take k; list slicing
  l[:k] / l[k:] becomes List.take / List.drop; l[-k:] for k ≥ 0 is
  modelled by recentSlice below (for k = 0 Python returns the whole
  list, for k > 0 the last min(k, len) elements).
- The external LLM client (self.llm) is a parameter of type
  String → Option String: `some content` models a successful
  invoke returning a response with that content, `none` models the
  invoke raising an exception.
- The tokenizer capability inside TokenCounter is likewise external
  (tiktoken); the in-repository heuristic fallback branch of
  count_tokens is embedded concretely as countTokensFallback, and the
  manager is parametrised over an arbitrary counting function
  tc : String → Nat covering both variants.
- datetime.now() is external nondeterminism: the timestamp string is
  passed to addExchange as an argument.
-/

namespace Docky

/-- Fallback branch of TokenCounter.count_tokens
    (src/memory/token_counter.py line 25): `len(text) // 4`. -/
def countTokensFallback (text : String) : Nat :=
  text.length / 4

/-- One Q&A exchange record, as built by ConversationManager.add_exchange
    (src/memory/conversation_manager.py lines 20-26). Sources are opaque
    citation records, modelled as strings. -/
structure Exchange where
  timestamp : String
  question : String
  answer : String
  sources : List String
  tokens : Nat
  deriving Repr, DecidableEq

/-- The mutable state of a ConversationManager
    (src/memory/conversation_manager.py lines 9-15): configuration plus
    conversation_history and summary. -/
structure ConversationManager where
  maxTokens : Nat
  maxRecentExchanges : Nat
  conversationHistory : List Exchange
  summary : String
  deriving Repr, DecidableEq

/-- The freshly constructed manager: empty history, empty summary
    (src/memory/conversation_manager.py lines 13-14). -/
def initCM (maxTokens maxRecentExchanges : Nat) : ConversationManager :=
  { maxTokens := maxTokens
    maxRecentExchanges := maxRecentExchanges
    conversationHistory := []
    summary := "" }

/-- Sum of per-exchange token counts over the retained history, as
    computed at lines 52 and 72 of conversation_manager.py. -/
def totalTokens (history : List Exchange) : Nat :=
  (history.map Exchange.tokens).sum

/-- Python history[-k:] for a Nat k: for k = 0 the slice [-0:] equals
    [0:], the whole list; for k > 0 it is the last min(k, len) elements,
    i.e. drop (len - k) with truncated subtraction. -/
def recentSlice (history : List Exchange) (k : Nat) : List Exchange :=
  if k = 0 then history else history.drop (history.length - k)

/-- The prompt built by _create_summary
    (src/memory/conversation_manager.py lines 96-102): a fixed header
    followed by one Q/A block per exchange, the answer truncated to its
    first 200 characters with an unconditional ellipsis. -/
def buildSummaryPrompt (exchanges : List Exchange) : String :=
  exchanges.foldl
    (fun acc ex =>
      acc ++ "Q: " ++ ex.question ++ "\nA: " ++ ex.answer.take 200 ++ "...\n\n")
    "Summarize this conversation history in 2-3 sentences, focusing on the main topics discussed and key information provided:\n\nConversation:\n"

/-- _create_summary (src/memory/conversation_manager.py lines 94-110):
    on a successful llm.invoke, prefix the response content; on any
    exception, the deterministic fallback built from the questions
    truncated to 50 characters, comma-joined. -/
def createSummary (llm : String → Option String) (exchanges : List Exchange) : String :=
  match llm (buildSummaryPrompt exchanges) with
  | some content => "Previous conversation summary: " ++ content
  | none =>
      "Previous conversation covered topics: " ++
        String.intercalate ", " (exchanges.map (fun ex => ex.question.take 50))

/-- _manage_history_size (src/memory/conversation_manager.py lines
    70-92): a single `if` — when the retained token sum exceeds
    max_tokens and more than one exchange is retained, summarize the
    oldest floor(len/2) exchanges, append the summary text to the
    running summary (with a blank-line separator when the old summary is
    non-empty), and keep the remaining suffix. -/
def manageHistorySize (llm : String → Option String) (cm : ConversationManager) :
    ConversationManager :=
  if totalTokens cm.conversationHistory > cm.maxTokens ∧
      cm.conversationHistory.length > 1 then
    let splitPoint := cm.conversationHistory.length / 2
    let toSummarize := cm.conversationHistory.take splitPoint
    let toKeep := cm.conversationHistory.drop splitPoint
    let summaryText := createSummary llm toSummarize
    { cm with
      summary :=
        if cm.summary = "" then summaryText
        else cm.summary ++ "\n\n" ++ summaryText
      conversationHistory := toKeep }
  else
    cm

/-- add_exchange (src/memory/conversation_manager.py lines 17-29):
    build the exchange record with tokens counted over
    f"{question} {answer}", append it, then run the size-management
    pass. tc is the token-counting capability, ts the wall-clock
    timestamp string. -/
def addExchange (llm : String → Option String) (tc : String → Nat)
    (ts question answer : String) (sources : List String)
    (cm : ConversationManager) : ConversationManager :=
  let ex : Exchange :=
    { timestamp := ts
      question := question
      answer := answer
      sources := sources
      tokens := tc (question ++ " " ++ answer) }
  manageHistorySize llm
    { cm with conversationHistory := cm.conversationHistory ++ [ex] }

/-- get_context_for_prompt (src/memory/conversation_manager.py lines
    31-47): summary block (when non-empty), then a header and one block
    per recent exchange, the answer truncated to 150 characters with an
    unconditional ellipsis. -/
def getContextForPrompt (cm : ConversationManager) : String :=
  let context := ""
  let context :=
    if cm.summary = "" then context else context ++ cm.summary ++ "\n\n"
  if cm.conversationHistory = [] then context
  else
    (recentSlice cm.conversationHistory cm.maxRecentExchanges).foldl
      (fun acc ex =>
        acc ++ "[" ++ ex.timestamp ++ "] Human: " ++ ex.question ++ "\n" ++
          "Assistant: " ++ ex.answer.take 150 ++ "...\n\n")
      (context ++ "Recent conversation:\n")

/-- The dict returned by get_conversation_stats
    (src/memory/conversation_manager.py lines 55-60). -/
structure Stats where
  totalExchanges : Nat
  totalTokens : Nat
  hasSummary : Bool
  summaryLength : Nat
  deriving Repr, DecidableEq

/-- get_conversation_stats (src/memory/conversation_manager.py lines
    49-60). The summary_length conditional mirrors the Python
    `len(self.summary) if self.summary else 0`. -/
def getConversationStats (cm : ConversationManager) : Stats :=
  { totalExchanges := cm.conversationHistory.length
    totalTokens := totalTokens cm.conversationHistory
    hasSummary := cm.summary != ""
    summaryLength := if cm.summary = "" then 0 else cm.summary.length }

/-- The dict returned by get_summary_info
    (src/memory/conversation_manager.py lines 62-68). -/
structure SummaryInfo where
  summary : String
  recentHistory : List Exchange
  stats : Stats
  deriving Repr, DecidableEq

/-- get_summary_info (src/memory/conversation_manager.py lines 62-68):
    the recent window is history[-max_recent_exchanges:]. -/
def getSummaryInfo (cm : ConversationManager) : SummaryInfo :=
  { summary := cm.summary
    recentHistory := recentSlice cm.conversationHistory cm.maxRecentExchanges
    stats := getConversationStats cm }

/-! State-passing forms of the three read accessors. The Python method
bodies of get_context_for_prompt, get_conversation_stats and
get_summary_info assign only to local variables and never to self, so
the translated post-state equals the pre-state. -/

/-- get_context_for_prompt as a state transformer: result plus
    post-state. -/
def getContextForPromptRun (cm : ConversationManager) :
    String × ConversationManager :=
  (getContextForPrompt cm, cm)

/-- get_conversation_stats as a state transformer: result plus
    post-state. -/
def getConversationStatsRun (cm : ConversationManager) :
    Stats × ConversationManager :=
  (getConversationStats cm, cm)

/-- get_summary_info as a state transformer: result plus post-state. -/
def getSummaryInfoRun (cm : ConversationManager) :
    SummaryInfo × ConversationManager :=
  (getSummaryInfo cm, cm)

/-- A read-only accessor call, for reasoning about arbitrary
    interleavings of reads between two add_exchange calls. -/
inductive ReadOp where
  | context
  | stats
  | info
  deriving Repr, DecidableEq

/-- Apply one read accessor and keep its post-state. -/
def runRead : ReadOp → ConversationManager → ConversationManager
  | ReadOp.context, cm => (getContextForPromptRun cm).2
  | ReadOp.stats, cm => (getConversationStatsRun cm).2
  | ReadOp.info, cm => (getSummaryInfoRun cm).2

/-- Apply a sequence of read accessors left to right, keeping the final
    state. -/
def runReads (ops : List ReadOp) (cm : ConversationManager) :
    ConversationManager :=
  ops.foldl (fun c op => runRead op c) cm

/-! Concrete instantiations used by counterexamples and witnesses. -/

/-- A generation capability that raises on every invoke. -/
def llmFail : String → Option String := fun _ => none

/-- A counting capability assigning one token to every text. -/
def tcOne : String → Nat := fun _ => 1

/-- A counting capability returning the character length. -/
def tcLen : String → Nat := fun s => s.length

/-- State after three add_exchange calls on a manager with
    max_tokens = 10: two cheap exchanges (3 tokens each), then one with
    13 tokens, which triggers exactly one compression pass. -/
def c1Final : ConversationManager :=
  addExchange llmFail tcLen "t3" "cccccccccccc" "" []
    (addExchange llmFail tcLen "t2" "b" "b" []
      (addExchange llmFail tcLen "t1" "a" "a" [] (initCM 10 3)))

/-- State after four cheap add_exchange calls on a manager configured
    with max_recent_exchanges = 4. -/
def c3CM : ConversationManager :=
  addExchange llmFail tcOne "t4" "d" "d" []
    (addExchange llmFail tcOne "t3" "c" "c" []
      (addExchange llmFail tcOne "t2" "b" "b" []
        (addExchange llmFail tcOne "t1" "a" "a" [] (initCM 1000 4))))

/-- A manager with two retained exchanges over budget and a non-empty
    summary, about to trigger a compression pass. -/
def c4CM : ConversationManager :=
  { maxTokens := 1
    maxRecentExchanges := 3
    conversationHistory :=
      [{ timestamp := "t1", question := "q1", answer := "a1", sources := [], tokens := 5 },
       { timestamp := "t2", question := "q2", answer := "a2", sources := [], tokens := 5 }]
    summary := "old" }

/-- A two-exchange batch for the summarizer fallback. -/
def c5Batch : List Exchange :=
  [{ timestamp := "t1", question := "first question", answer := "a1", sources := [], tokens := 5 },
   { timestamp := "t2", question := "second question", answer := "a2", sources := [], tokens := 5 }]

/-- Manager configured with max_recent_exchanges = 0 holding one
    exchange, reached by a single add_exchange call. -/
def c6CM : ConversationManager :=
  addExchange llmFail tcOne "t1" "q" "a" [] (initCM 1000 0)

/-- A manager with three retained exchanges and recent-window
    configuration 2. -/
def c6WCM : ConversationManager :=
  { maxTokens := 1000
    maxRecentExchanges := 2
    conversationHistory :=
      [{ timestamp := "t1", question := "q1", answer := "a1", sources := [], tokens := 1 },
       { timestamp := "t2", question := "q2", answer := "a2", sources := [], tokens := 1 },
       { timestamp := "t3", question := "q3", answer := "a3", sources := [], tokens := 1 }]
    summary := "" }

/-! Helper lemmas shared by the claim theorems. -/

/-- When the trigger condition fails, the size-management pass is the
    identity. -/
theorem manageHistorySize_not_trigger (llm : String → Option String)
    (cm : ConversationManager)
    (h : ¬ (totalTokens cm.conversationHistory > cm.maxTokens ∧
        cm.conversationHistory.length > 1)) :
    manageHistorySize llm cm = cm := by
  unfold manageHistorySize
  rw [if_neg h]

/-- When the trigger condition holds, the size-management pass keeps the
    newer half and appends the generated summary text. -/
theorem manageHistorySize_trigger (llm : String → Option String)
    (cm : ConversationManager)
    (h : totalTokens cm.conversationHistory > cm.maxTokens ∧
        cm.conversationHistory.length > 1) :
    manageHistorySize llm cm =
      { cm with
        summary :=
          if cm.summary = "" then
            createSummary llm
              (cm.conversationHistory.take (cm.conversationHistory.length / 2))
          else
            cm.summary ++ "\n\n" ++
              createSummary llm
                (cm.conversationHistory.take (cm.conversationHistory.length / 2))
        conversationHistory :=
          cm.conversationHistory.drop (cm.conversationHistory.length / 2) } := by
  unfold manageHistorySize
  rw [if_pos h]

/-- add_exchange is the size-management pass applied to the state with
    the new exchange appended. -/
theorem addExchange_eq (llm : String → Option String) (tc : String → Nat)
    (ts q a : String) (src : List String) (cm : ConversationManager) :
    addExchange llm tc ts q a src cm =
      manageHistorySize llm
        { cm with
          conversationHistory := cm.conversationHistory ++
            [{ timestamp := ts, question := q, answer := a, sources := src,
               tokens := tc (q ++ " " ++ a) }] } :=
  rfl

/-- The size-management pass never changes the configuration fields. -/
theorem manageHistorySize_config (llm : String → Option String)
    (cm : ConversationManager) :
    (manageHistorySize llm cm).maxTokens = cm.maxTokens ∧
    (manageHistorySize llm cm).maxRecentExchanges = cm.maxRecentExchanges := by
  unfold manageHistorySize
  split <;> exact ⟨rfl, rfl⟩

/-- For a positive window size k, the Python slice history[-k:] has
    exactly min k (length history) elements. -/
theorem recentSlice_length (history : List Exchange) (k : Nat) (h : 1 ≤ k) :
    (recentSlice history k).length = min k history.length := by
  unfold recentSlice
  rw [if_neg (by omega), List.length_drop]
  omega

/-! Claim theorems. -/

/-- Claim C1, as stated, is false: with max_tokens = 10 > 0, after the
    third add_exchange call the retained token sum is 16 > 10 while two
    exchanges remain — the size-management pass is a single `if`, not a
    loop, so neither disjunct of the claimed invariant holds. -/
theorem c1_counterexample :
    0 < c1Final.maxTokens ∧
    ¬ (totalTokens c1Final.conversationHistory ≤ c1Final.maxTokens ∨
        c1Final.conversationHistory.length = 1) := by
  decide

/-- Claim C1 (amended): after each add_exchange call, either the
    retained token sum is at most max_tokens, or exactly one exchange is
    retained, or the call ran a single compression pass retaining the
    newest half (by count) of the appended history; the pass runs at
    most once per call (the code is an `if`, not a `while`), so in the
    last case the sum may still exceed max_tokens with more than one
    exchange retained. -/
theorem c1_single_pass (llm : String → Option String) (tc : String → Nat)
    (ts q a : String) (src : List String) (cm : ConversationManager) :
    totalTokens (addExchange llm tc ts q a src cm).conversationHistory ≤
        (addExchange llm tc ts q a src cm).maxTokens ∨
      (addExchange llm tc ts q a src cm).conversationHistory.length = 1 ∨
      (addExchange llm tc ts q a src cm).conversationHistory =
        (cm.conversationHistory ++
            [({ timestamp := ts, question := q, answer := a, sources := src,
                tokens := tc (q ++ " " ++ a) } : Exchange)]).drop
          ((cm.conversationHistory.length + 1) / 2) := by
  rw [addExchange_eq]
  set cmA : ConversationManager :=
    { cm with
      conversationHistory := cm.conversationHistory ++
        [{ timestamp := ts, question := q, answer := a, sources := src,
           tokens := tc (q ++ " " ++ a) }] } with hcmA
  have hlen : cmA.conversationHistory.length =
      cm.conversationHistory.length + 1 := by
    rw [hcmA]
    simp
  by_cases h : totalTokens cmA.conversationHistory > cmA.maxTokens ∧
      cmA.conversationHistory.length > 1
  · rw [manageHistorySize_trigger llm cmA h]
    right
    right
    show cmA.conversationHistory.drop (cmA.conversationHistory.length / 2) =
      cmA.conversationHistory.drop ((cm.conversationHistory.length + 1) / 2)
    rw [hlen]
  · rw [manageHistorySize_not_trigger llm cmA h]
    rcases not_and_or.mp h with h1 | h2
    · exact Or.inl (le_of_not_lt h1)
    · right
      left
      omega

/-- Claim C2, as stated, is false: the heuristic fallback of
    count_tokens is `len(text) // 4` with no floor at 1; on the empty
    string it returns 0, not a value ≥ 1, and differs from
    max(1, floor(len/4)). -/
theorem c2_counterexample :
    countTokensFallback "" = 0 ∧
    ¬ 1 ≤ countTokensFallback "" ∧
    countTokensFallback "" ≠ max 1 ("".length / 4) := by
  decide

/-- Claim C2 (amended): the heuristic fallback returns exactly
    floor(len(text)/4), with no max(1, ...) floor; the result is ≥ 1
    precisely when the text has at least 4 characters, and is 0 for
    shorter text, including the empty string. -/
theorem c2_fallback_floor (text : String) :
    countTokensFallback text = text.length / 4 ∧
    (1 ≤ countTokensFallback text ↔ 4 ≤ text.length) := by
  unfold countTokensFallback
  exact ⟨rfl, by omega⟩

/-- Claim C3, as stated, is false: get_summary_info slices the history
    with max_recent_exchanges, not a hard-coded 3 — with
    max_recent_exchanges = 4 and four retained exchanges the returned
    recent window has 4 entries, not 3. -/
theorem c3_counterexample :
    c3CM.maxRecentExchanges = 4 ∧
    (getSummaryInfo c3CM).recentHistory.length = 4 ∧
    (getSummaryInfo c3CM).recentHistory.length ≠ 3 := by
  decide

/-- Claim C3 (amended): get_summary_info returns the current summary,
    the stats, and the last min(max_recent_exchanges, len(exchanges))
    retained exchanges; the window size is the configured
    max_recent_exchanges (whose default is 3), not a hard-coded 3. -/
theorem c3_window_follows_config (cm : ConversationManager)
    (h : 1 ≤ cm.maxRecentExchanges) :
    (getSummaryInfo cm).summary = cm.summary ∧
    (getSummaryInfo cm).stats = getConversationStats cm ∧
    (getSummaryInfo cm).recentHistory.length =
      min cm.maxRecentExchanges cm.conversationHistory.length := by
  exact ⟨rfl, rfl, recentSlice_length cm.conversationHistory cm.maxRecentExchanges h⟩

/-- Witness for C3's amended theorem at the concrete state c3CM. -/
theorem c3_witness :
    1 ≤ c3CM.maxRecentExchanges ∧
    (getSummaryInfo c3CM).recentHistory.length =
      min c3CM.maxRecentExchanges c3CM.conversationHistory.length :=
  ⟨by decide, (c3_window_follows_config c3CM (by decide)).2.2⟩

/-- Claim C4: when a compression pass runs, the new summary is the old
    summary with the generated text appended after a blank line (or just
    the generated text when the old summary was empty), and consequently
    the summary length never decreases across any add_exchange call. -/
theorem c4_summary_append_monotone (llm : String → Option String)
    (cm : ConversationManager) :
    (totalTokens cm.conversationHistory > cm.maxTokens ∧
        cm.conversationHistory.length > 1 →
      (manageHistorySize llm cm).summary =
        if cm.summary = "" then
          createSummary llm
            (cm.conversationHistory.take (cm.conversationHistory.length / 2))
        else
          cm.summary ++ "\n\n" ++
            createSummary llm
              (cm.conversationHistory.take (cm.conversationHistory.length / 2))) ∧
    ∀ (tc : String → Nat) (ts q a : String) (src : List String),
      cm.summary.length ≤ (addExchange llm tc ts q a src cm).summary.length := by
  constructor
  · intro h
    rw [manageHistorySize_trigger llm cm h]
  · intro tc ts q a src
    rw [addExchange_eq]
    set cmA : ConversationManager :=
      { cm with
        conversationHistory := cm.conversationHistory ++
          [{ timestamp := ts, question := q, answer := a, sources := src,
             tokens := tc (q ++ " " ++ a) }] } with hcmA
    have hsum : cmA.summary = cm.summary := rfl
    by_cases h : totalTokens cmA.conversationHistory > cmA.maxTokens ∧
        cmA.conversationHistory.length > 1
    · rw [manageHistorySize_trigger llm cmA h]
      show cm.summary.length ≤
        (if cmA.summary = "" then
          createSummary llm
            (cmA.conversationHistory.take (cmA.conversationHistory.length / 2))
        else
          cmA.summary ++ "\n\n" ++
            createSummary llm
              (cmA.conversationHistory.take
                (cmA.conversationHistory.length / 2))).length
      by_cases hs : cmA.summary = ""
      · rw [if_pos hs]
        rw [hsum] at hs
        rw [hs]
        exact Nat.zero_le _
      · rw [if_neg hs]
        rw [hsum]
        simp only [String.length_append]
        omega
    · rw [manageHistorySize_not_trigger llm cmA h]

/-- Witness for C4 at the concrete over-budget state c4CM with a
    failing generation capability. -/
theorem c4_witness :
    (totalTokens c4CM.conversationHistory > c4CM.maxTokens ∧
      c4CM.conversationHistory.length > 1) ∧
    (manageHistorySize llmFail c4CM).summary =
      (if c4CM.summary = "" then
        createSummary llmFail
          (c4CM.conversationHistory.take (c4CM.conversationHistory.length / 2))
      else
        c4CM.summary ++ "\n\n" ++
          createSummary llmFail
            (c4CM.conversationHistory.take
              (c4CM.conversationHistory.length / 2))) ∧
    c4CM.summary.length ≤
      (addExchange llmFail tcOne "t3" "q3" "a3" [] c4CM).summary.length :=
  ⟨by decide, (c4_summary_append_monotone llmFail c4CM).1 (by decide),
    (c4_summary_append_monotone llmFail c4CM).2 tcOne "t3" "q3" "a3" []⟩

/-- Claim C5: with a generation capability that fails on every invoke,
    the summarizer of a non-empty batch does not fail and returns
    exactly the deterministic fallback — the fixed prefix followed by
    the comma-joined questions truncated to 50 characters — and the
    result is identical for any two always-failing capabilities (hence
    byte-identical across repeated calls). -/
theorem c5_fallback_deterministic (llm : String → Option String)
    (hfail : ∀ p, llm p = none) (batch : List Exchange) (hne : batch ≠ []) :
    createSummary llm batch =
      "Previous conversation covered topics: " ++
        String.intercalate ", " (batch.map (fun ex => ex.question.take 50)) ∧
    ∀ llm2 : String → Option String, (∀ p, llm2 p = none) →
      createSummary llm2 batch = createSummary llm batch := by
  have key : ∀ l : String → Option String, (∀ p, l p = none) →
      createSummary l batch =
        "Previous conversation covered topics: " ++
          String.intercalate ", " (batch.map (fun ex => ex.question.take 50)) := by
    intro l hl
    unfold createSummary
    rw [hl]
  exact ⟨key llm hfail,
    fun llm2 h2 => (key llm2 h2).trans (key llm hfail).symm⟩

/-- Witness for C5 at the concrete two-exchange batch c5Batch. -/
theorem c5_witness :
    c5Batch ≠ [] ∧
    createSummary llmFail c5Batch =
      "Previous conversation covered topics: " ++
        String.intercalate ", " (c5Batch.map (fun ex => ex.question.take 50)) :=
  ⟨by decide,
    (c5_fallback_deterministic llmFail (fun _ => rfl) c5Batch (by decide)).1⟩

/-- Claim C6, as stated, is false for the configured value
    max_recent_exchanges = 0: the Python slice history[-0:] returns the
    whole history, so with one retained exchange the recent window has
    1 entry, exceeding max_recent_exchanges and differing from
    min(0, 1) = 0. -/
theorem c6_counterexample :
    c6CM.maxRecentExchanges = 0 ∧
    (getSummaryInfo c6CM).recentHistory.length = 1 ∧
    ¬ (getSummaryInfo c6CM).recentHistory.length ≤ c6CM.maxRecentExchanges := by
  decide

/-- Claim C6 (amended): for every configured max_recent_exchanges ≥ 1,
    the recent window of the context snapshot has at most
    max_recent_exchanges entries, exactly
    min(max_recent_exchanges, len(exchanges)) entries, and is a suffix
    of the retained history (hence ordered oldest-of-the-window first);
    for max_recent_exchanges = 0 the Python slice [-0:] instead returns
    all retained exchanges. -/
theorem c6_window_bound (cm : ConversationManager)
    (h : 1 ≤ cm.maxRecentExchanges) :
    (getSummaryInfo cm).recentHistory.length ≤ cm.maxRecentExchanges ∧
    (getSummaryInfo cm).recentHistory.length =
      min cm.maxRecentExchanges cm.conversationHistory.length ∧
    (getSummaryInfo cm).recentHistory <:+ cm.conversationHistory := by
  have hl : (getSummaryInfo cm).recentHistory.length =
      min cm.maxRecentExchanges cm.conversationHistory.length :=
    recentSlice_length cm.conversationHistory cm.maxRecentExchanges h
  refine ⟨by omega, hl, ?_⟩
  show recentSlice cm.conversationHistory cm.maxRecentExchanges <:+
    cm.conversationHistory
  unfold recentSlice
  rw [if_neg (by omega)]
  exact List.drop_suffix _ _

/-- Witness for C6's amended theorem at the concrete state c6WCM. -/
theorem c6_witness :
    1 ≤ c6WCM.maxRecentExchanges ∧
    (getSummaryInfo c6WCM).recentHistory.length ≤ c6WCM.maxRecentExchanges :=
  ⟨by decide, (c6_window_bound c6WCM (by decide)).1⟩

/-- Claim C7: on a freshly created manager, get_context_for_prompt
    returns the empty string and get_conversation_stats returns all-zero
    stats with has_summary false; both are total functions. -/
theorem c7_empty_state (mt mre : Nat) :
    getContextForPrompt (initCM mt mre) = "" ∧
    getConversationStats (initCM mt mre) =
      { totalExchanges := 0, totalTokens := 0, hasSummary := false,
        summaryLength := 0 } := by
  constructor <;> rfl

/-- Claim C8: adding a single exchange whose token count exceeds
    max_tokens to an empty store triggers no compression: one exchange
    is retained and the summary stays empty. -/
theorem c8_single_oversized (llm : String → Option String)
    (tc : String → Nat) (ts q a : String) (src : List String)
    (mt mre : Nat) (h : mt < tc (q ++ " " ++ a)) :
    (addExchange llm tc ts q a src (initCM mt mre)).conversationHistory.length
        = 1 ∧
    (addExchange llm tc ts q a src (initCM mt mre)).summary = "" := by
  rw [addExchange_eq]
  rw [manageHistorySize_not_trigger]
  · exact ⟨rfl, rfl⟩
  · intro hc
    have h2 := hc.2
    simp [initCM] at h2

/-- Witness for C8: a nine-character exchange counted by length against
    max_tokens = 1. -/
theorem c8_witness :
    1 < tcLen ("aaaaaaaa" ++ " " ++ "") ∧
    (addExchange llmFail tcLen "t1" "aaaaaaaa" "" []
        (initCM 1 3)).conversationHistory.length = 1 ∧
    (addExchange llmFail tcLen "t1" "aaaaaaaa" "" [] (initCM 1 3)).summary
      = "" :=
  ⟨by decide,
    (c8_single_oversized llmFail tcLen "t1" "aaaaaaaa" "" [] 1 3 (by decide)).1,
    (c8_single_oversized llmFail tcLen "t1" "aaaaaaaa" "" [] 1 3 (by decide)).2⟩

/-- Claim C9: whenever more than one exchange is retained, the split
    point floor(len/2) is at least 1 and strictly below len, the
    summarized prefix is non-empty (the Summarizer is never invoked on
    an empty batch), and the history retained after the
    size-management pass is non-empty. -/
theorem c9_split_safe (llm : String → Option String)
    (cm : ConversationManager) (h : 1 < cm.conversationHistory.length) :
    1 ≤ cm.conversationHistory.length / 2 ∧
    cm.conversationHistory.length / 2 < cm.conversationHistory.length ∧
    cm.conversationHistory.take (cm.conversationHistory.length / 2) ≠ [] ∧
    (manageHistorySize llm cm).conversationHistory ≠ [] := by
  refine ⟨by omega, by omega, ?_, ?_⟩
  · intro hnil
    have ht := List.length_take (cm.conversationHistory.length / 2)
      cm.conversationHistory
    rw [hnil] at ht
    simp at ht
    omega
  · by_cases ht : totalTokens cm.conversationHistory > cm.maxTokens ∧
        cm.conversationHistory.length > 1
    · rw [manageHistorySize_trigger llm cm ht]
      show cm.conversationHistory.drop (cm.conversationHistory.length / 2) ≠ []
      intro hnil
      have hd := List.length_drop (cm.conversationHistory.length / 2)
        cm.conversationHistory
      rw [hnil] at hd
      simp at hd
      omega
    · rw [manageHistorySize_not_trigger llm cm ht]
      intro hnil
      rw [hnil] at h
      simp at h

/-- Witness for C9 at the concrete two-exchange state c4CM. -/
theorem c9_witness :
    1 < c4CM.conversationHistory.length ∧
    c4CM.conversationHistory.take (c4CM.conversationHistory.length / 2)
      ≠ [] ∧
    (manageHistorySize llmFail c4CM).conversationHistory ≠ [] :=
  ⟨by decide, (c9_split_safe llmFail c4CM (by decide)).2.2.1,
    (c9_split_safe llmFail c4CM (by decide)).2.2.2⟩

/-- Claim C10: the three read accessors leave the manager state
    unchanged, and any sequence of such reads between two add_exchange
    calls does not affect the result of the later add_exchange. -/
theorem c10_reads_pure (ops : List ReadOp) (cm : ConversationManager)
    (llm : String → Option String) (tc : String → Nat) (ts q a : String)
    (src : List String) :
    (getContextForPromptRun cm).2 = cm ∧
    (getConversationStatsRun cm).2 = cm ∧
    (getSummaryInfoRun cm).2 = cm ∧
    runReads ops cm = cm ∧
    addExchange llm tc ts q a src (runReads ops cm) =
      addExchange llm tc ts q a src cm := by
  have hrun : ∀ (l : List ReadOp) (c : ConversationManager),
      runReads l c = c := by
    intro l
    induction l with
    | nil => intro c; rfl
    | cons op rest ih =>
        intro c
        have hstep : runRead op c = c := by cases op <;> rfl
        show runReads rest (runRead op c) = c
        rw [hstep, ih c]
  exact ⟨rfl, rfl, rfl, hrun ops cm, by rw [hrun ops cm]⟩

end Docky
